import Mathlib

/-!
Shallow embedding of the RustOpenGLTemplate rendering engine
(template_core, template_graphics, template_app) and proofs about it.

Modelling conventions:
- Rust machine integers are embedded as Nat / Int; the `as i32` casts of the
  source are embedded by an explicit wrap (`i32_cast`).
- The OpenGL backend (glow) and the filesystem are embedded as oracles:
  records of pure functions describing what the external calls return.
- Side-effecting GL calls are recorded in explicit command traces
  (`GlCmd`, `WinCmd`) so that resource release and upload order are provable.
- A Rust panic (an `unwrap` on `None`) is embedded as an `Option` result
  being `none`.
- f32 scalar arithmetic (aspect ratios, angles, matrix entries) is embedded
  over the reals; IEEE rounding is abstracted away.
-/

namespace Template

/-- Embedding of the Rust cast `x as i32` applied to an unsigned value:
truncate to 32 bits and reinterpret as a signed 32-bit integer. -/
def i32_cast (x : Nat) : Int :=
  if x % 2 ^ 32 < 2 ^ 31 then ((x % 2 ^ 32 : Nat) : Int)
  else ((x % 2 ^ 32 : Nat) : Int) - 2 ^ 32

/-- The error enum of template_core/src/errors.rs. -/
inductive TemplateError where
  | Io (msg : String)
  | OpenGL (msg : String)
  | ShaderCompilation (msg : String)
  | WindowCreation (msg : String)
deriving DecidableEq, Repr

/-- The display strings produced by the thiserror attributes in errors.rs. -/
def TemplateError.message : TemplateError → String
  | .Io m => "I/O error: " ++ m
  | .OpenGL m => "OpenGL error: " ++ m
  | .ShaderCompilation m => "Shader compilation error: " ++ m
  | .WindowCreation m => "Window creation error: " ++ m

/-- The glow constant glow::VERTEX_SHADER (0x8B31). -/
def glVERTEX_SHADER : Nat := 35633

/-- The glow constant glow::FRAGMENT_SHADER (0x8B30). -/
def glFRAGMENT_SHADER : Nat := 35632

/-- The glow constant glow::TRIANGLES. -/
def glTRIANGLES : Nat := 4

/-- Side-effecting GL calls issued by the embedded code, recorded as a trace.
Handles for shaders, programs and locations are Nat. -/
inductive GlCmd where
  | shader_source (shader : Nat) (src : String)
  | compile_shader (shader : Nat)
  | attach_shader (program shader : Nat)
  | link_program (program : Nat)
  | delete_shader (shader : Nat)
  | use_program (program : Nat)
  | uniform_matrix_4_f32_slice (location : Nat) (transpose : Bool)
  | viewport (x y w h : Int)
  | clear
  | draw_arrays (mode : Nat) (first : Int) (count : Int)
deriving DecidableEq, Repr

/-- The renderable mesh of template_graphics/src/mesh.rs: a vertex array
object, a vertex buffer object, and a vertex count (an i32 in the source). -/
structure Mesh where
  vao : Nat
  vbo : Nat
  vertex_count : Int
deriving DecidableEq, Repr

/-- Embedding of Mesh::calculate_vertex_count: `(vertices.len() / 6) as i32`,
usize division followed by the wrapping cast to i32. -/
def Mesh.calculate_vertex_count (vertices : List Float) : Int :=
  i32_cast (vertices.length / 6)

/-- Embedding of Mesh::new. The vao and vbo handles returned by the device
allocation calls are passed in as parameters; the vertex count stored in the
mesh is computed by calculate_vertex_count at construction, exactly as in
the source. -/
def Mesh.new (vao vbo : Nat) (vertices : List Float) : Mesh :=
  { vao := vao, vbo := vbo, vertex_count := Mesh.calculate_vertex_count vertices }

/-- The number of buffer floats Mesh::draw can read: draw_arrays over
`vertex_count` vertices with attribute layout 3+3 floats at stride 24 bytes
starting at offset 0 reads 6 floats per vertex; a non-positive count draws
nothing (GL rejects a negative count with GL_INVALID_VALUE). -/
def Mesh.draw_reads (m : Mesh) : Nat := 6 * m.vertex_count.toNat

/-- Embedding of Mesh::draw: bind the VAO, issue the non-indexed triangle
draw over vertex_count vertices, unbind. -/
def Mesh.draw (m : Mesh) : List GlCmd :=
  [GlCmd.draw_arrays glTRIANGLES 0 m.vertex_count]

theorem i32_cast_of_lt {x : Nat} (h : x < 2 ^ 31) : i32_cast x = (x : Int) := by
  unfold i32_cast
  rw [Nat.mod_eq_of_lt (lt_trans h (by norm_num)), if_pos h]

/-- C3 (amended): the vertex count computed at mesh construction is
floor(L/6) whenever floor(L/6) fits in an i32 (in particular for every
physically realizable array, e.g. L = 216 gives 36); for larger L the
`as i32` cast wraps. For every L, without restriction, the draw over
vertex_count vertices reads at most L floats, so it never reads past the
uploaded data. -/
theorem mesh_vertex_count_floor (vertices : List Float) :
    (vertices.length / 6 < 2 ^ 31 →
      Mesh.calculate_vertex_count vertices = ((vertices.length / 6 : Nat) : Int)) ∧
    ∀ vao vbo : Nat, (Mesh.new vao vbo vertices).draw_reads ≤ vertices.length := by
  constructor
  · intro h
    exact i32_cast_of_lt h
  · intro vao vbo
    unfold Mesh.new Mesh.draw_reads Mesh.calculate_vertex_count i32_cast
    by_cases hc : vertices.length / 6 % 2 ^ 32 < 2 ^ 31
    · simp only [hc, if_true, Int.toNat_ofNat]
      calc 6 * (vertices.length / 6 % 2 ^ 32)
          ≤ 6 * (vertices.length / 6) := Nat.mul_le_mul_left 6 (Nat.mod_le _ _)
        _ = vertices.length / 6 * 6 := Nat.mul_comm _ _
        _ ≤ vertices.length := Nat.div_mul_le_self _ _
    · simp only [hc, if_false]
      have hneg : ((vertices.length / 6 % 2 ^ 32 : Nat) : Int) - 2 ^ 32 ≤ 0 := by
        have := Nat.mod_lt (vertices.length / 6) (show 0 < 2 ^ 32 by norm_num)
        omega
      rw [Int.toNat_of_nonpos hneg]
      simp

/-- Witness for C3: the demo cube's flat array of 216 floats yields a
vertex count of 36. -/
theorem mesh_vertex_count_floor_witness :
    Mesh.calculate_vertex_count (List.replicate 216 (0.0 : Float)) = 36 := by
  have h := (mesh_vertex_count_floor (List.replicate 216 (0.0 : Float))).1
  simp only [List.length_replicate] at h
  have := h (by norm_num)
  rw [this]
  norm_num

/-- C3 counterexample: the claim "for every flat vertex array of length L the
vertex count equals floor(L/6)" fails at L = 6 * 2^31, where the `as i32`
cast in calculate_vertex_count wraps floor(L/6) = 2^31 to -2^31. -/
theorem mesh_vertex_count_cex :
    Mesh.calculate_vertex_count (List.replicate (6 * 2 ^ 31) (0.0 : Float)) ≠
      (((6 * 2 ^ 31) / 6 : Nat) : Int) := by
  unfold Mesh.calculate_vertex_count i32_cast
  simp only [List.length_replicate]
  norm_num

/-- A winit PhysicalSize of u32 width and height, as delivered by a
Resized event. -/
structure PhysicalSize where
  width : Nat
  height : Nat
deriving DecidableEq, Repr

/-- The portion of the GL device state the embedded renderer operations
touch and the claims concern: the viewport rectangle set by gl.viewport. -/
structure GlState where
  viewport : Int × Int × Int × Int
deriving DecidableEq, Repr

/-- Embedding of Renderer::resize: `gl.viewport(0, 0, width as i32,
height as i32)`. -/
def Renderer.resize (st : GlState) (width height : Nat) : GlState :=
  { st with viewport := (0, 0, i32_cast width, i32_cast height) }

/-- The nalgebra Perspective3 value as the code keeps it: the four
construction parameters of Perspective3::new, over the reals. -/
structure Perspective3 where
  aspect : Real
  fovy : Real
  znear : Real
  zfar : Real

/-- Embedding of Perspective3::new. -/
def Perspective3.new (aspect fovy znear zfar : Real) : Perspective3 :=
  { aspect := aspect, fovy := fovy, znear := znear, zfar := zfar }

/-- Embedding of Rust f32::to_radians: multiply by pi / 180. -/
noncomputable def toRadians (x : Real) : Real := x * (Real.pi / 180)

/-- The projection matrix Perspective3::as_matrix returns (nalgebra's
right-handed perspective matrix). Recorded for completeness of the
embedding; the claims do not constrain its entries. -/
noncomputable def Perspective3.as_matrix (p : Perspective3) :
    Matrix (Fin 4) (Fin 4) Real :=
  Matrix.of
    ![![1 / (p.aspect * Real.tan (p.fovy / 2)), 0, 0, 0],
      ![0, 1 / Real.tan (p.fovy / 2), 0, 0],
      ![0, 0, -(p.zfar + p.znear) / (p.zfar - p.znear),
        -(2 * p.zfar * p.znear) / (p.zfar - p.znear)],
      ![0, 0, -1, 0]]

/-- Embedding of handle_resize in template_app/src/app.rs: call
Renderer::resize with the event's width and height, then overwrite the
projection with Perspective3::new(w/h, 45 degrees in radians, 0.1, 100.0).
The old projection is passed in (as in the source) but never read. -/
noncomputable def handle_resize (st : GlState) (projection : Perspective3)
    (physical_size : PhysicalSize) : GlState × Perspective3 :=
  let st2 := Renderer.resize st physical_size.width physical_size.height
  let aspect : Real := (physical_size.width : Real) / (physical_size.height : Real)
  (st2, Perspective3.new aspect (toRadians 45) 0.1 100.0)

/-- C1 (amended): for a resize event with height > 0 and width and height
below 2^31, the recomputed projection has aspect = width / height while the
field-of-view, near and far planes stay at 45 degrees (in radians), 0.1 and
100.0, and the device viewport is set to (0, 0, width, height); for a width
or height of 2^31 or more, the i32 cast in the viewport call wraps. -/
theorem handle_resize_spec (st : GlState) (projection : Perspective3)
    (size : PhysicalSize) (hh : 0 < size.height)
    (hw : size.width < 2 ^ 31) (hh2 : size.height < 2 ^ 31) :
    (handle_resize st projection size).2.aspect =
      (size.width : Real) / (size.height : Real) ∧
    (handle_resize st projection size).2.fovy = toRadians 45 ∧
    (handle_resize st projection size).2.znear = 0.1 ∧
    (handle_resize st projection size).2.zfar = 100.0 ∧
    (handle_resize st projection size).1.viewport =
      (0, 0, (size.width : Int), (size.height : Int)) := by
  refine ⟨rfl, rfl, rfl, rfl, ?_⟩
  unfold handle_resize Renderer.resize
  simp only [i32_cast_of_lt hw, i32_cast_of_lt hh2]

/-- Witness for C1: resizing to 400 x 400 gives aspect 1, unchanged
field-of-view / near / far, and viewport (0, 0, 400, 400). -/
theorem handle_resize_spec_witness :
    (handle_resize { viewport := (0, 0, 800, 600) }
        (Perspective3.new (800 / 600) (toRadians 45) 0.1 100.0)
        { width := 400, height := 400 }).1.viewport = (0, 0, 400, 400) ∧
    (handle_resize { viewport := (0, 0, 800, 600) }
        (Perspective3.new (800 / 600) (toRadians 45) 0.1 100.0)
        { width := 400, height := 400 }).2.aspect = 1 ∧
    (handle_resize { viewport := (0, 0, 800, 600) }
        (Perspective3.new (800 / 600) (toRadians 45) 0.1 100.0)
        { width := 400, height := 400 }).2.fovy = toRadians 45 := by
  have h := handle_resize_spec { viewport := (0, 0, 800, 600) }
    (Perspective3.new (800 / 600) (toRadians 45) 0.1 100.0)
    { width := 400, height := 400 } (by norm_num) (by norm_num) (by norm_num)
  refine ⟨h.2.2.2.2, ?_, h.2.1⟩
  rw [h.1]
  norm_num

/-- C1 counterexample: at a resize event of width 2^31 and height 600 the
viewport is not set to (0, 0, 2^31, 600): the cast to i32 wraps the width
to -2^31. -/
theorem handle_resize_viewport_cex :
    (handle_resize { viewport := (0, 0, 800, 600) }
        (Perspective3.new (800 / 600) (toRadians 45) 0.1 100.0)
        { width := 2 ^ 31, height := 600 }).1.viewport ≠
      (0, 0, ((2 ^ 31 : Nat) : Int), 600) := by
  unfold handle_resize Renderer.resize i32_cast
  norm_num

/-- Embedding of nalgebra Matrix4::from_axis_angle with the unit x axis:
the homogeneous rotation about the x axis. -/
noncomputable def rotation_x (angle : Real) : Matrix (Fin 4) (Fin 4) Real :=
  Matrix.of
    ![![1, 0, 0, 0],
      ![0, Real.cos angle, -Real.sin angle, 0],
      ![0, Real.sin angle, Real.cos angle, 0],
      ![0, 0, 0, 1]]

/-- Embedding of nalgebra Matrix4::from_axis_angle with the unit y axis:
the homogeneous rotation about the y axis. -/
noncomputable def rotation_y (angle : Real) : Matrix (Fin 4) (Fin 4) Real :=
  Matrix.of
    ![![Real.cos angle, 0, Real.sin angle, 0],
      ![0, 1, 0, 0],
      ![-Real.sin angle, 0, Real.cos angle, 0],
      ![0, 0, 0, 1]]

/-- The model matrix the RedrawRequested arm of TemplateApp::window_event
computes from the elapsed time: rotation about x by elapsed * 0.5, rotation
about y by elapsed * 0.7, composed as rotation_y * rotation_x. -/
noncomputable def redraw_model (elapsed : Real) : Matrix (Fin 4) (Fin 4) Real :=
  let rotationX := rotation_x (elapsed * 0.5)
  let rotationY := rotation_y (elapsed * 0.7)
  rotationY * rotationX

/-- The model matrix as the spec words it: rotation_y(0.7 t) composed after
rotation_x(0.5 t), i.e. the matrix product rotation_y(0.7 t) *
rotation_x(0.5 t). -/
noncomputable def spec_model_matrix (t : Real) : Matrix (Fin 4) (Fin 4) Real :=
  rotation_y (0.7 * t) * rotation_x (0.5 * t)

theorem rotation_x_zero : rotation_x 0 = 1 := by
  unfold rotation_x
  ext i j
  fin_cases i <;> fin_cases j <;>
    simp [Matrix.one_apply, Real.cos_zero, Real.sin_zero,
      Matrix.vecHead, Matrix.vecTail]

theorem rotation_y_zero : rotation_y 0 = 1 := by
  unfold rotation_y
  ext i j
  fin_cases i <;> fin_cases j <;>
    simp [Matrix.one_apply, Real.cos_zero, Real.sin_zero,
      Matrix.vecHead, Matrix.vecTail]

/-- C2: for every elapsed time t the model matrix computed on a
RedrawRequested event equals rotation_y(0.7 t) * rotation_x(0.5 t) (the
spec's composition), and at t = 0 it is the identity matrix. -/
theorem redraw_model_spec (t : Real) :
    redraw_model t = spec_model_matrix t ∧ redraw_model 0 = 1 := by
  constructor
  · unfold redraw_model spec_model_matrix
    rw [mul_comm t 0.5, mul_comm t 0.7]
  · unfold redraw_model
    simp only [zero_mul, rotation_x_zero, rotation_y_zero, one_mul]

/-- Oracle for the glow backend calls the shader code makes: what each
device query returns. Handles and uniform locations are Nat. -/
structure GlBackend where
  create_shader : Nat → Except String Nat
  get_shader_compile_status : Nat → Bool
  get_shader_info_log : Nat → String
  create_program : Except String Nat
  get_program_link_status : Nat → Bool
  get_program_info_log : Nat → String
  get_uniform_location : Nat → String → Option Nat

/-- Oracle for std::fs::read_to_string. -/
structure Fs where
  read_to_string : String → Except String String

/-- The shader of template_graphics/src/shader.rs: a linked program handle
and the uniform-location cache (a HashMap in the source, an association
list here, most recent insertion first). -/
structure Shader where
  program : Nat
  uniforms : List (String × Nat)
deriving DecidableEq, Repr

/-- Embedding of Shader::compile_shader: create a shader object, hand it
the source, compile, and return it, or return
TemplateError::ShaderCompilation carrying the backend's info log (or the
creation error) unmodified. The second component is the trace of GL calls
issued. -/
def Shader.compile_shader (gl : GlBackend) (shader_type : Nat) (source : String) :
    Except TemplateError Nat × List GlCmd :=
  match gl.create_shader shader_type with
  | .error e => (.error (.ShaderCompilation e), [])
  | .ok shader =>
    let trace := [GlCmd.shader_source shader source, GlCmd.compile_shader shader]
    if gl.get_shader_compile_status shader then (.ok shader, trace)
    else (.error (.ShaderCompilation (gl.get_shader_info_log shader)), trace)

/-- Embedding of Shader::link_program: create a program, attach both stage
shaders, link; on link success delete both stage shaders and return the
program; on link failure return TemplateError::ShaderCompilation carrying
the program info log unmodified, without deleting the stage shaders (the
early return skips the delete_shader calls, exactly as in the source). -/
def Shader.link_program (gl : GlBackend) (vertex_shader fragment_shader : Nat) :
    Except TemplateError Nat × List GlCmd :=
  match gl.create_program with
  | .error e => (.error (.ShaderCompilation e), [])
  | .ok program =>
    let trace := [GlCmd.attach_shader program vertex_shader,
                  GlCmd.attach_shader program fragment_shader,
                  GlCmd.link_program program]
    if gl.get_program_link_status program then
      (.ok program,
        trace ++ [GlCmd.delete_shader vertex_shader,
                  GlCmd.delete_shader fragment_shader])
    else
      (.error (.ShaderCompilation (gl.get_program_info_log program)), trace)

/-- Embedding of Shader::new: read both stage sources from
resources/shaders/, compile the vertex then the fragment stage, link, and
return the shader with an empty uniform cache; each `?` early return
propagates the first error. -/
def Shader.new (fs : Fs) (gl : GlBackend) (vertex_path fragment_path : String) :
    Except TemplateError Shader × List GlCmd :=
  match fs.read_to_string ("resources/shaders/" ++ vertex_path) with
  | .error e => (.error (.Io e), [])
  | .ok vertex_source =>
  match fs.read_to_string ("resources/shaders/" ++ fragment_path) with
  | .error e => (.error (.Io e), [])
  | .ok fragment_source =>
  match Shader.compile_shader gl glVERTEX_SHADER vertex_source with
  | (.error e, t1) => (.error e, t1)
  | (.ok vertex_shader, t1) =>
  match Shader.compile_shader gl glFRAGMENT_SHADER fragment_source with
  | (.error e, t2) => (.error e, t1 ++ t2)
  | (.ok fragment_shader, t2) =>
  match Shader.link_program gl vertex_shader fragment_shader with
  | (.error e, t3) => (.error e, t1 ++ t2 ++ t3)
  | (.ok program, t3) =>
    (.ok { program := program, uniforms := [] }, t1 ++ t2 ++ t3)

/-- Embedding of Shader::get_uniform_location: the entry-or-insert-with
lookup. A cached name returns its location with the cache unchanged; an
uncached name is resolved through the device and inserted; a failed
resolution hits the source's unwrap, embedded as `none` (a panic). -/
def Shader.get_uniform_location (gl : GlBackend) (s : Shader) (name : String) :
    Option (Nat × Shader) :=
  match s.uniforms.lookup name with
  | some location => some (location, s)
  | none =>
    match gl.get_uniform_location s.program name with
    | some location =>
        some (location, { s with uniforms := (name, location) :: s.uniforms })
    | none => none

/-- Embedding of Shader::set_matrix4: resolve the location (possibly
panicking) and upload the column-major matrix (transpose flag false). The
matrix value itself does not influence the cache or the trace shape. -/
def Shader.set_matrix4 (gl : GlBackend) (s : Shader) (name : String)
    (matrix : Matrix (Fin 4) (Fin 4) Real) : Option (Shader × List GlCmd) :=
  match Shader.get_uniform_location gl s name with
  | none => none
  | some (location, s2) =>
      some (s2, [GlCmd.uniform_matrix_4_f32_slice location false])

/-- A sequence of set_matrix4 calls on one shader, threading the cache;
`none` when some call panics. -/
def Shader.set_matrix4_seq (gl : GlBackend) (s : Shader) :
    List (String × Matrix (Fin 4) (Fin 4) Real) → Option Shader
  | [] => some s
  | (name, m) :: rest =>
    match Shader.set_matrix4 gl s name m with
    | none => none
    | some (s2, _) => Shader.set_matrix4_seq gl s2 rest

theorem set_matrix4_preserves (gl : GlBackend) (s : Shader) (name : String)
    (m : Matrix (Fin 4) (Fin 4) Real) (s2 : Shader) (cmds : List GlCmd)
    (h : Shader.set_matrix4 gl s name m = some (s2, cmds)) :
    ∀ e ∈ s.uniforms, e ∈ s2.uniforms := by
  unfold Shader.set_matrix4 Shader.get_uniform_location at h
  cases hl : s.uniforms.lookup name with
  | some location =>
      rw [hl] at h
      simp only [Option.some.injEq, Prod.mk.injEq] at h
      intro e he
      rw [← h.1]
      exact he
  | none =>
      rw [hl] at h
      cases hd : gl.get_uniform_location s.program name with
      | none => rw [hd] at h; exact absurd h (by simp)
      | some location =>
          rw [hd] at h
          simp only [Option.some.injEq, Prod.mk.injEq] at h
          intro e he
          rw [← h.1]
          exact List.mem_cons_of_mem _ he

theorem set_matrix4_seq_preserves (gl : GlBackend)
    (calls : List (String × Matrix (Fin 4) (Fin 4) Real)) :
    ∀ s s2 : Shader, Shader.set_matrix4_seq gl s calls = some s2 →
      ∀ e ∈ s.uniforms, e ∈ s2.uniforms := by
  induction calls with
  | nil =>
      intro s s2 h e he
      unfold Shader.set_matrix4_seq at h
      simp only [Option.some.injEq] at h
      rw [← h]
      exact he
  | cons c rest ih =>
      intro s s2 h e he
      unfold Shader.set_matrix4_seq at h
      cases hc : Shader.set_matrix4 gl s c.1 c.2 with
      | none =>
          rw [hc] at h
          exact absurd h (by simp)
      | some r =>
          rw [hc] at h
          exact ih r.1 s2 h e (set_matrix4_preserves gl s c.1 c.2 r.1 r.2 hc e he)

/-- C5: the uniform-location cache is an idempotent, append-only cache.
For a name already cached, set_matrix4 leaves the cache unchanged and its
result does not depend on the device oracle at all (no re-resolution); for
a new name whose resolution succeeds, exactly one entry is added in front
of the unchanged old entries; and across any call and any sequence of
calls, no cache entry is ever removed or invalidated. -/
theorem uniform_cache_props (gl gl2 : GlBackend) (s : Shader) (name : String)
    (location : Nat) (m : Matrix (Fin 4) (Fin 4) Real) :
    (s.uniforms.lookup name = some location →
      Shader.set_matrix4 gl s name m =
        some (s, [GlCmd.uniform_matrix_4_f32_slice location false]) ∧
      Shader.set_matrix4 gl s name m = Shader.set_matrix4 gl2 s name m) ∧
    (s.uniforms.lookup name = none →
      gl.get_uniform_location s.program name = some location →
      Shader.set_matrix4 gl s name m =
        some ({ s with uniforms := (name, location) :: s.uniforms },
          [GlCmd.uniform_matrix_4_f32_slice location false])) ∧
    (∀ s2 cmds, Shader.set_matrix4 gl s name m = some (s2, cmds) →
      ∀ e ∈ s.uniforms, e ∈ s2.uniforms) ∧
    (∀ calls s2, Shader.set_matrix4_seq gl s calls = some s2 →
      ∀ e ∈ s.uniforms, e ∈ s2.uniforms) := by
  refine ⟨?_, ?_, ?_, ?_⟩
  · intro hl
    unfold Shader.set_matrix4 Shader.get_uniform_location
    rw [hl]
    exact ⟨rfl, rfl⟩
  · intro hl hd
    unfold Shader.set_matrix4 Shader.get_uniform_location
    rw [hl, hd]
  · intro s2 cmds h
    exact set_matrix4_preserves gl s name m s2 cmds h
  · intro calls s2 h
    exact set_matrix4_seq_preserves gl calls s s2 h

/-- A device oracle used by concrete witnesses: every handle allocation
succeeds, compilation and linking succeed, and every uniform name resolves
to location 5. -/
def glOk : GlBackend :=
  { create_shader := fun shader_type => .ok shader_type
    get_shader_compile_status := fun _ => true
    get_shader_info_log := fun _ => ""
    create_program := .ok 100
    get_program_link_status := fun _ => true
    get_program_info_log := fun _ => ""
    get_uniform_location := fun _ _ => some 5 }

/-- A filesystem oracle whose reads all succeed. -/
def fsOk : Fs := { read_to_string := fun _ => .ok "void main() \x7b \x7d" }

/-- Witness for C5: on a shader whose cache already maps "model" to 3, a
repeated set_matrix4 call leaves the cache unchanged; on an empty cache a
call with "model" adds exactly the one entry resolved by the device. -/
theorem uniform_cache_props_witness :
    Shader.set_matrix4 glOk { program := 100, uniforms := [("model", 3)] } "model" 1 =
      some ({ program := 100, uniforms := [("model", 3)] },
        [GlCmd.uniform_matrix_4_f32_slice 3 false]) ∧
    Shader.set_matrix4 glOk { program := 100, uniforms := [] } "model" 1 =
      some ({ program := 100, uniforms := [("model", 5)] },
        [GlCmd.uniform_matrix_4_f32_slice 5 false]) := by
  constructor
  · exact ((uniform_cache_props glOk glOk
      { program := 100, uniforms := [("model", 3)] } "model" 3 1).1 (by rfl)).1
  · exact (uniform_cache_props glOk glOk
      { program := 100, uniforms := [] } "model" 5 1).2.1 (by rfl) (by rfl)

/-- C10: a set_matrix4 call with a name that is not cached and that the
device resolves to no location hits the unwrap in get_uniform_location and
panics (embedded as `none`): it neither returns an error value nor skips
the upload. -/
theorem set_matrix4_panics (gl : GlBackend) (s : Shader) (name : String)
    (m : Matrix (Fin 4) (Fin 4) Real)
    (hcache : s.uniforms.lookup name = none)
    (hdev : gl.get_uniform_location s.program name = none) :
    Shader.set_matrix4 gl s name m = none := by
  unfold Shader.set_matrix4 Shader.get_uniform_location
  rw [hcache, hdev]

/-- A device oracle that resolves no uniform name. -/
def glNoUniform : GlBackend :=
  { glOk with get_uniform_location := fun _ _ => none }

/-- Witness for C10: on an empty cache and a device that resolves nothing,
set_matrix4 with the name "model" panics. -/
theorem set_matrix4_panics_witness :
    Shader.set_matrix4 glNoUniform { program := 100, uniforms := [] } "model" 1 =
      none :=
  set_matrix4_panics glNoUniform { program := 100, uniforms := [] } "model" 1
    (by rfl) (by rfl)

theorem compile_shader_ok (gl : GlBackend) (ty : Nat) (source : String) (sh : Nat)
    (hc : gl.create_shader ty = .ok sh)
    (hs : gl.get_shader_compile_status sh = true) :
    Shader.compile_shader gl ty source =
      (.ok sh, [GlCmd.shader_source sh source, GlCmd.compile_shader sh]) := by
  unfold Shader.compile_shader
  simp only [hc, hs, if_true]

theorem compile_shader_fail (gl : GlBackend) (ty : Nat) (source : String) (sh : Nat)
    (hc : gl.create_shader ty = .ok sh)
    (hs : gl.get_shader_compile_status sh = false) :
    Shader.compile_shader gl ty source =
      (.error (.ShaderCompilation (gl.get_shader_info_log sh)),
       [GlCmd.shader_source sh source, GlCmd.compile_shader sh]) := by
  unfold Shader.compile_shader
  simp only [hc, hs]
  simp

theorem link_program_ok (gl : GlBackend) (v f p : Nat)
    (hp : gl.create_program = .ok p)
    (hs : gl.get_program_link_status p = true) :
    Shader.link_program gl v f =
      (.ok p, [GlCmd.attach_shader p v, GlCmd.attach_shader p f,
               GlCmd.link_program p, GlCmd.delete_shader v,
               GlCmd.delete_shader f]) := by
  unfold Shader.link_program
  simp only [hp, hs, if_true]
  rfl

theorem link_program_fail (gl : GlBackend) (v f p : Nat)
    (hp : gl.create_program = .ok p)
    (hs : gl.get_program_link_status p = false) :
    Shader.link_program gl v f =
      (.error (.ShaderCompilation (gl.get_program_info_log p)),
       [GlCmd.attach_shader p v, GlCmd.attach_shader p f,
        GlCmd.link_program p]) := by
  unfold Shader.link_program
  simp only [hp, hs]
  simp

/-- C4 (amended): shader construction fails with the single
TemplateError::ShaderCompilation kind carrying the backend's diagnostic
text unmodified: the vertex or fragment stage's info log when that stage's
compilation fails, and the program's info log when linking fails. Link
failure is reported through the same ShaderCompilation kind, not a
distinct link-error kind, and no stage tag is recorded in the error. -/
theorem shader_error_kinds (fs : Fs) (gl : GlBackend)
    (vertex_path fragment_path vertex_source fragment_source : String)
    (hv : fs.read_to_string ("resources/shaders/" ++ vertex_path) = .ok vertex_source)
    (hf : fs.read_to_string ("resources/shaders/" ++ fragment_path) = .ok fragment_source) :
    (∀ v, gl.create_shader glVERTEX_SHADER = .ok v →
      gl.get_shader_compile_status v = false →
      (Shader.new fs gl vertex_path fragment_path).1 =
        .error (.ShaderCompilation (gl.get_shader_info_log v))) ∧
    (∀ v f, gl.create_shader glVERTEX_SHADER = .ok v →
      gl.get_shader_compile_status v = true →
      gl.create_shader glFRAGMENT_SHADER = .ok f →
      gl.get_shader_compile_status f = false →
      (Shader.new fs gl vertex_path fragment_path).1 =
        .error (.ShaderCompilation (gl.get_shader_info_log f))) ∧
    (∀ v f p, gl.create_shader glVERTEX_SHADER = .ok v →
      gl.get_shader_compile_status v = true →
      gl.create_shader glFRAGMENT_SHADER = .ok f →
      gl.get_shader_compile_status f = true →
      gl.create_program = .ok p →
      gl.get_program_link_status p = false →
      (Shader.new fs gl vertex_path fragment_path).1 =
        .error (.ShaderCompilation (gl.get_program_info_log p))) := by
  refine ⟨?_, ?_, ?_⟩
  · intro v hcv hsv
    unfold Shader.new
    simp only [hv, hf, compile_shader_fail gl glVERTEX_SHADER vertex_source v hcv hsv]
  · intro v f hcv hsv hcf hsf
    unfold Shader.new
    simp only [hv, hf, compile_shader_ok gl glVERTEX_SHADER vertex_source v hcv hsv,
      compile_shader_fail gl glFRAGMENT_SHADER fragment_source f hcf hsf]
  · intro v f p hcv hsv hcf hsf hp hlp
    unfold Shader.new
    simp only [hv, hf, compile_shader_ok gl glVERTEX_SHADER vertex_source v hcv hsv,
      compile_shader_ok gl glFRAGMENT_SHADER fragment_source f hcf hsf,
      link_program_fail gl v f p hp hlp]

/-- A device oracle on which every stage compilation fails with the log
"compile failed". -/
def glCompileFail : GlBackend :=
  { glOk with
    get_shader_compile_status := fun _ => false
    get_shader_info_log := fun _ => "compile failed" }

/-- A device oracle on which compilation succeeds and linking fails with
the log "link failed". -/
def glLinkFail : GlBackend :=
  { glOk with
    get_program_link_status := fun _ => false
    get_program_info_log := fun _ => "link failed" }

/-- Witness for C4: on a device whose vertex stage fails to compile with
the log "compile failed", Shader::new returns ShaderCompilation carrying
that log unmodified. -/
theorem shader_error_kinds_witness :
    (Shader.new fsOk glCompileFail "basic.vert" "basic.frag").1 =
      .error (.ShaderCompilation "compile failed") :=
  (shader_error_kinds fsOk glCompileFail "basic.vert" "basic.frag"
    "void main() \x7b \x7d" "void main() \x7b \x7d" rfl rfl).1 glVERTEX_SHADER rfl rfl

/-- C4 counterexample: there is no distinct link-error kind. On a concrete
device whose link step fails, Shader::new returns the very same
TemplateError::ShaderCompilation constructor that a compile failure
produces, only with a different log string. -/
theorem shader_link_error_cex :
    (Shader.new fsOk glLinkFail "basic.vert" "basic.frag").1 =
      .error (.ShaderCompilation "link failed") ∧
    (Shader.new fsOk glCompileFail "basic.vert" "basic.frag").1 =
      .error (.ShaderCompilation "compile failed") := by
  constructor
  · rfl
  · rfl

/-- C8 (amended): the two compiled stage shader objects are deleted
immediately after a successful link, and only then: on the early-return
error paths (a link failure, or a fragment-stage compile failure after the
vertex stage compiled) no delete of either stage object is ever issued, so
those paths leave the compiled stage objects undeleted. -/
theorem shader_stage_delete (fs : Fs) (gl : GlBackend)
    (vertex_path fragment_path vertex_source fragment_source : String)
    (v f p : Nat)
    (hv : fs.read_to_string ("resources/shaders/" ++ vertex_path) = .ok vertex_source)
    (hf : fs.read_to_string ("resources/shaders/" ++ fragment_path) = .ok fragment_source)
    (hcv : gl.create_shader glVERTEX_SHADER = .ok v)
    (hsv : gl.get_shader_compile_status v = true)
    (hcf : gl.create_shader glFRAGMENT_SHADER = .ok f)
    (hp : gl.create_program = .ok p) :
    (gl.get_shader_compile_status f = true →
      gl.get_program_link_status p = true →
      Shader.new fs gl vertex_path fragment_path =
        (.ok { program := p, uniforms := [] },
         [GlCmd.shader_source v vertex_source, GlCmd.compile_shader v,
          GlCmd.shader_source f fragment_source, GlCmd.compile_shader f,
          GlCmd.attach_shader p v, GlCmd.attach_shader p f,
          GlCmd.link_program p, GlCmd.delete_shader v,
          GlCmd.delete_shader f])) ∧
    (gl.get_shader_compile_status f = true →
      gl.get_program_link_status p = false →
      GlCmd.delete_shader v ∉ (Shader.new fs gl vertex_path fragment_path).2 ∧
      GlCmd.delete_shader f ∉ (Shader.new fs gl vertex_path fragment_path).2) ∧
    (gl.get_shader_compile_status f = false →
      GlCmd.delete_shader v ∉ (Shader.new fs gl vertex_path fragment_path).2) := by
  refine ⟨?_, ?_, ?_⟩
  · intro hsf hlp
    unfold Shader.new
    simp only [hv, hf, compile_shader_ok gl glVERTEX_SHADER vertex_source v hcv hsv,
      compile_shader_ok gl glFRAGMENT_SHADER fragment_source f hcf hsf,
      link_program_ok gl v f p hp hlp]
    rfl
  · intro hsf hlp
    unfold Shader.new
    simp only [hv, hf, compile_shader_ok gl glVERTEX_SHADER vertex_source v hcv hsv,
      compile_shader_ok gl glFRAGMENT_SHADER fragment_source f hcf hsf,
      link_program_fail gl v f p hp hlp]
    simp
  · intro hsf
    unfold Shader.new
    simp only [hv, hf, compile_shader_ok gl glVERTEX_SHADER vertex_source v hcv hsv,
      compile_shader_fail gl glFRAGMENT_SHADER fragment_source f hcf hsf]
    simp

/-- Witness for C8: on a fully succeeding device both stage objects are
deleted right after the link, as the last two commands of the trace. -/
theorem shader_stage_delete_witness :
    Shader.new fsOk glOk "basic.vert" "basic.frag" =
      (.ok { program := 100, uniforms := [] },
       [GlCmd.shader_source 35633 "void main() \x7b \x7d", GlCmd.compile_shader 35633,
        GlCmd.shader_source 35632 "void main() \x7b \x7d", GlCmd.compile_shader 35632,
        GlCmd.attach_shader 100 35633, GlCmd.attach_shader 100 35632,
        GlCmd.link_program 100, GlCmd.delete_shader 35633,
        GlCmd.delete_shader 35632]) :=
  (shader_stage_delete fsOk glOk "basic.vert" "basic.frag"
    "void main() \x7b \x7d" "void main() \x7b \x7d" 35633 35632 100
    rfl rfl rfl rfl rfl rfl).1 rfl rfl

/-- C8 counterexample: on a concrete device whose link fails, shader
construction returns the error without deleting either compiled stage
object: no delete_shader command appears in the issued trace, refuting
deletion on every exit path. -/
theorem shader_leak_on_link_failure_cex :
    (Shader.new fsOk glLinkFail "basic.vert" "basic.frag").1 =
      .error (.ShaderCompilation "link failed") ∧
    GlCmd.delete_shader 35633 ∉ (Shader.new fsOk glLinkFail "basic.vert" "basic.frag").2 ∧
    GlCmd.delete_shader 35632 ∉ (Shader.new fsOk glLinkFail "basic.vert" "basic.frag").2 := by
  refine ⟨rfl, ?_, ?_⟩ <;> decide

/-- Oracle for the glutin surface: what the backend's swap call reports. -/
structure SurfaceBackend where
  swap_buffers_result : Except String Unit

/-- Window-level side effects the embedded code issues. -/
inductive WinCmd where
  | request_redraw
  | log_error (msg : String)
deriving DecidableEq, Repr

/-- Embedding of Window::swap_buffers: a backend-reported swap failure is
mapped to TemplateError::OpenGL (the presentation-error kind of the error
taxonomy) and returned by the `?`; on success the next redraw is requested
and Ok(()) is returned. -/
def Window.swap_buffers (surface : SurfaceBackend) :
    Except TemplateError Unit × List WinCmd :=
  match surface.swap_buffers_result with
  | .error e => (.error (.OpenGL e), [])
  | .ok _ => (.ok (), [WinCmd.request_redraw])

/-- Embedding of Renderer::present: delegates to Window::swap_buffers. -/
def Renderer.present (surface : SurfaceBackend) :
    Except TemplateError Unit × List WinCmd :=
  Window.swap_buffers surface

/-- Embedding of render_frame in template_app/src/app.rs: clear, bind the
shader, upload the projection / view / model matrices (each upload may
panic, embedded as `none`), draw the mesh, then present; a presentation
error is logged with the message render_frame formats and the frame is
dropped, the function returning normally either way. -/
def render_frame (gl : GlBackend) (surface : SurfaceBackend) (mesh : Mesh)
    (shader : Shader) (projection view model : Matrix (Fin 4) (Fin 4) Real) :
    Option (Shader × List GlCmd × List WinCmd) :=
  match Shader.set_matrix4 gl shader "projection" projection with
  | none => none
  | some (s1, c1) =>
  match Shader.set_matrix4 gl s1 "view" view with
  | none => none
  | some (s2, c2) =>
  match Shader.set_matrix4 gl s2 "model" model with
  | none => none
  | some (s3, c3) =>
    match Renderer.present surface with
    | (.error e, wt) =>
        some (s3,
          [GlCmd.clear, GlCmd.use_program shader.program] ++ c1 ++ c2 ++ c3 ++
            Mesh.draw mesh,
          wt ++ [WinCmd.log_error ("Render error: " ++ e.message)])
    | (.ok _, wt) =>
        some (s3,
          [GlCmd.clear, GlCmd.use_program shader.program] ++ c1 ++ c2 ++ c3 ++
            Mesh.draw mesh,
          wt)

/-- The loaded glow dispatch table: it keeps the loader it was built from.
A resolved address is a Nat, 0 standing for a null pointer (an entry point
the provider could not resolve). -/
structure GlowContext where
  loader : String → Nat

/-- Embedding of GlContextBuilder::build: glow's from_loader_function
installs whatever the loader returns, null pointers included, and cannot
report a resolution failure; build therefore always returns Ok. (The only
failure path in the source is a panic if an entry-point name contains an
interior NUL byte, which glow's fixed names never do.) -/
def GlContextBuilder.build (get_proc_address : String → Nat) :
    Except TemplateError GlowContext :=
  .ok { loader := get_proc_address }

/-- C7 (amended): Graphics Device Handle construction never fails: for
every loader, including one that resolves no entry point at all,
GlContextBuilder::build returns Ok with the dispatch table wrapping that
loader. There is no DeviceInitError kind in the error enum, and a failing
resolution surfaces only later, when the missing entry point is called,
not at construction. -/
theorem build_always_ok (get_proc_address : String → Nat) :
    GlContextBuilder.build get_proc_address =
      .ok { loader := get_proc_address } := rfl

/-- C7 counterexample: with the loader that resolves every mandatory entry
point to a null pointer, build still succeeds instead of returning an
initialization error. -/
theorem build_null_loader_cex :
    GlContextBuilder.build (fun _ => 0) = .ok { loader := fun _ => 0 } := rfl

/-- The application state of TemplateApp in template_app/src/app.rs. The
start_time Instant and the elapsed-time reads are embedded as reals. -/
structure TemplateApp where
  mesh : Mesh
  shader : Shader
  projection : Perspective3
  view : Matrix (Fin 4) (Fin 4) Real
  model : Matrix (Fin 4) (Fin 4) Real
  glState : GlState
  start_time : Real

/-- The window-system events the handler distinguishes; every other event
falls into `other`. -/
inductive WindowEvent where
  | closeRequested
  | resized (physical_size : PhysicalSize)
  | redrawRequested
  | other
deriving DecidableEq, Repr

/-- The ActiveEventLoop flag that event_loop.exit() sets. -/
structure EventLoopCtl where
  exiting : Bool
deriving DecidableEq, Repr

/-- Embedding of TemplateApp::window_event: CloseRequested calls
event_loop.exit(); Resized runs handle_resize; RedrawRequested reads the
elapsed time, recomputes the model matrix and runs render_frame (whose
uniform-upload panic propagates as `none`); any other event does nothing.
`now` is the monotonic-clock reading at the event. -/
noncomputable def TemplateApp.window_event (gl : GlBackend)
    (surface : SurfaceBackend) (ctl : EventLoopCtl) (app : TemplateApp)
    (now : Real) (event : WindowEvent) : Option (EventLoopCtl × TemplateApp) :=
  match event with
  | .closeRequested => some ({ ctl with exiting := true }, app)
  | .resized physical_size =>
      let r := handle_resize app.glState app.projection physical_size
      some (ctl, { app with glState := r.1, projection := r.2 })
  | .redrawRequested =>
      let elapsed := now - app.start_time
      let model := redraw_model elapsed
      match render_frame gl surface app.mesh app.shader
          (Perspective3.as_matrix app.projection) app.view model with
      | none => none
      | some (s2, _, _) =>
          some (ctl, { app with model := model, shader := s2 })
  | .other => some (ctl, app)

/-- Modelled from the spec: the external event loop (winit's run_app, not
part of this repository) "delivers a typed stream of window-system events
to the Application Loop", "one event handled at a time, synchronously",
and after CloseRequested the "loop exits; no further events processed".
The driver hands each timestamped event to the handler while the exit
flag is unset and stops delivering once it is set; it returns the final
control state, the final application state and the list of events that
were actually processed (`none` if a handler invocation panicked). -/
noncomputable def run_events (gl : GlBackend) (surface : SurfaceBackend)
    (ctl : EventLoopCtl) (app : TemplateApp) :
    List (Real × WindowEvent) →
      Option (EventLoopCtl × TemplateApp × List WindowEvent)
  | [] => some (ctl, app, [])
  | (now, event) :: rest =>
    if ctl.exiting then some (ctl, app, [])
    else
      match TemplateApp.window_event gl surface ctl app now event with
      | none => none
      | some (ctl2, app2) =>
        match run_events gl surface ctl2 app2 rest with
        | none => none
        | some (ctl3, app3, processed) => some (ctl3, app3, event :: processed)

theorem string_append_assoc (a b c : String) : a ++ b ++ c = a ++ (b ++ c) := by
  cases a; cases b; cases c
  apply String.ext
  simp [String.append]

/-- C6: a backend-reported swap failure surfaces from Window::swap_buffers
as the presentation-error kind (TemplateError::OpenGL) carrying the
backend's message, with no redraw requested; inside a RedrawRequested
frame the failure is logged with the render_frame error message and the
frame is dropped while render_frame returns normally; the event-loop
control state is untouched by a redraw, so the failure is never fatal; and
on a successful swap the next redraw is requested. -/
theorem presentation_error_handling (surface : SurfaceBackend) :
    (∀ msg, surface.swap_buffers_result = .error msg →
      Window.swap_buffers surface = (.error (.OpenGL msg), [])) ∧
    (surface.swap_buffers_result = .ok () →
      Window.swap_buffers surface = (.ok (), [WinCmd.request_redraw])) ∧
    (∀ gl mesh shader projection view model s2 gcmds wcmds,
      render_frame gl surface mesh shader projection view model =
        some (s2, gcmds, wcmds) →
      (∀ msg, surface.swap_buffers_result = .error msg →
        WinCmd.log_error ("Render error: OpenGL error: " ++ msg) ∈ wcmds ∧
        WinCmd.request_redraw ∉ wcmds) ∧
      (surface.swap_buffers_result = .ok () →
        WinCmd.request_redraw ∈ wcmds)) ∧
    (∀ gl ctl app now result,
      TemplateApp.window_event gl surface ctl app now .redrawRequested =
        some result →
      result.1 = ctl) := by
  refine ⟨?_, ?_, ?_, ?_⟩
  · intro msg h
    unfold Window.swap_buffers
    rw [h]
  · intro h
    unfold Window.swap_buffers
    rw [h]
  · intro gl mesh shader projection view model s2 gcmds wcmds h
    unfold render_frame at h
    cases h1 : Shader.set_matrix4 gl shader "projection" projection with
    | none => simp only [h1] at h; exact Option.noConfusion h
    | some r1 =>
      obtain ⟨s1v, c1⟩ := r1
      simp only [h1] at h
      cases h2 : Shader.set_matrix4 gl s1v "view" view with
      | none => simp only [h2] at h; exact Option.noConfusion h
      | some r2 =>
        obtain ⟨s2v, c2⟩ := r2
        simp only [h2] at h
        cases h3 : Shader.set_matrix4 gl s2v "model" model with
        | none => simp only [h3] at h; exact Option.noConfusion h
        | some r3 =>
          obtain ⟨s3v, c3⟩ := r3
          simp only [h3] at h
          constructor
          · intro msg hs
            unfold Renderer.present Window.swap_buffers at h
            simp only [hs, Option.some.injEq, Prod.mk.injEq] at h
            rw [← h.2.2]
            constructor
            · have hm : "Render error: " ++ ("OpenGL error: " ++ msg) =
                  "Render error: OpenGL error: " ++ msg := by
                rw [← string_append_assoc]
                rfl
              simp [TemplateError.message, hm]
            · simp
          · intro hs
            unfold Renderer.present Window.swap_buffers at h
            simp only [hs, Option.some.injEq, Prod.mk.injEq] at h
            rw [← h.2.2]
            simp
  · intro gl ctl app now result h
    simp only [TemplateApp.window_event] at h
    cases hr : render_frame gl surface app.mesh app.shader
        (Perspective3.as_matrix app.projection) app.view
        (redraw_model (now - app.start_time)) with
    | none => simp only [hr] at h; exact Option.noConfusion h
    | some r =>
      obtain ⟨rs, rg, rw⟩ := r
      simp only [hr, Option.some.injEq] at h
      rw [← h]

/-- A surface whose swap fails with the message "swap failed". -/
def surfaceFail : SurfaceBackend := { swap_buffers_result := .error "swap failed" }

/-- A surface whose swap succeeds. -/
def surfaceOk : SurfaceBackend := { swap_buffers_result := .ok () }

/-- Witness for C6: on a concrete failing surface the swap error is the
OpenGL presentation kind with the backend message, and on a concrete
succeeding surface the next redraw is requested. -/
theorem presentation_error_handling_witness :
    Window.swap_buffers surfaceFail = (.error (.OpenGL "swap failed"), []) ∧
    Window.swap_buffers surfaceOk = (.ok (), [WinCmd.request_redraw]) :=
  ⟨(presentation_error_handling surfaceFail).1 "swap failed" rfl,
   (presentation_error_handling surfaceOk).2.1 rfl⟩

/-- C9: processing CloseRequested calls event_loop.exit() and nothing else
(the application state is untouched, no rendering happens); once the exit
flag is set the loop processes no further event at all; and when
CloseRequested arrives with any events still pending after it (in
particular a pending RedrawRequested), the loop processes the close and
terminates without processing any of them. -/
theorem close_requested_terminates (gl : GlBackend) (surface : SurfaceBackend)
    (ctl : EventLoopCtl) (app : TemplateApp) (now : Real) :
    (TemplateApp.window_event gl surface ctl app now .closeRequested =
      some ({ ctl with exiting := true }, app)) ∧
    (∀ events, ctl.exiting = true →
      run_events gl surface ctl app events = some (ctl, app, [])) ∧
    (∀ rest, ctl.exiting = false →
      run_events gl surface ctl app ((now, WindowEvent.closeRequested) :: rest) =
        some ({ exiting := true }, app, [WindowEvent.closeRequested])) := by
  refine ⟨rfl, ?_, ?_⟩
  · intro events h
    cases events with
    | nil => rfl
    | cons e rest =>
        unfold run_events
        rw [h]
        simp
  · intro rest h
    unfold run_events
    rw [h]
    simp only [Bool.false_eq_true, if_false]
    have hrest : run_events gl surface { exiting := true } app rest =
        some ({ exiting := true }, app, []) := by
      cases rest with
      | nil => rfl
      | cons e rs =>
          unfold run_events
          simp
    simp only [TemplateApp.window_event, hrest]

/-- A concrete application state for event-loop witnesses. -/
noncomputable def appInit : TemplateApp :=
  { mesh := Mesh.new 1 2 (List.replicate 216 (0.0 : Float))
    shader := { program := 100, uniforms := [] }
    projection := Perspective3.new (800 / 600) (toRadians 45) 0.1 100.0
    view := 1
    model := 1
    glState := { viewport := (0, 0, 800, 600) }
    start_time := 0 }

/-- Witness for C9: with a pending redraw queued behind the close request,
the loop processes only the close, sets the exit flag and stops. -/
theorem close_requested_terminates_witness :
    run_events glOk surfaceOk { exiting := false } appInit
        [(1, WindowEvent.closeRequested), (1, WindowEvent.redrawRequested)] =
      some ({ exiting := true }, appInit, [WindowEvent.closeRequested]) :=
  (close_requested_terminates glOk surfaceOk { exiting := false } appInit 1).2.2
    [(1, WindowEvent.redrawRequested)] rfl

end Template
